import Mathlib

/-!
Shallow embedding of the Form-Builder-with-AirTable backend (Express +
Mongoose) and proofs about its specification claims.

Sources embedded here:
  * `backend/models/Response.js` — response schema, `addError`,
    `markAsSynced`, `updateSyncAttempt`, `findPendingSync`, the pre-save
    completion-percentage hook;
  * `backend/models/User.js`   — user schema and `toJSON`;
  * `backend/routes/auth.js`   — the simple OAuth callback route;
  * the forms router (`POST /`, `GET /:id`, `PUT /:id`, `DELETE /:id`,
    `POST /:id/duplicate`) and `models/Form.js` — form schema, the
    pre-save stats hook, `incrementViews`, `incrementSubmissions`.

Mongoose documents are modelled as Lean structures whose field defaults
are the schema defaults; `save()` is modelled by applying the schema's
pre-save hook; Mongo queries are modelled as filters over a list of
documents; JavaScript `Mixed` values are modelled by `JsValue` together
with JS truthiness; `Math.round` on the (non-negative) ratios appearing
in the code is modelled by Mathlib's `round` on `ℚ` (both are
floor (x + 1/2)).  Timestamps (`new Date()`) are abstract `Nat` clock
values passed in explicitly.
-/

namespace FormBuilder

/-- A JavaScript value as stored in a Mongoose `Mixed` field
(`fieldResponseSchema.value` can be a string, an array, or file info). -/
inductive JsValue where
  | undef : JsValue
  | null : JsValue
  | boolV : Bool → JsValue
  | numV : Int → JsValue
  | strV : String → JsValue
  | arrV : List JsValue → JsValue

/-- JavaScript truthiness: `undefined`, `null`, `false`, `0`, `""` are
falsy; every object (hence every array, empty or not) is truthy. -/
def JsValue.truthy : JsValue → Bool
  | .undef => false
  | .null => false
  | .boolV b => b
  | .numV n => n != 0
  | .strV s => s != ""
  | .arrV _ => true

/-- Response `status` enum from `responseSchema`
(`['pending', 'submitted', 'failed', 'synced']`). -/
inductive RespStatus where
  | pending : RespStatus
  | submitted : RespStatus
  | failed : RespStatus
  | synced : RespStatus
deriving DecidableEq, Repr

/-- Model of `responseSchema.syncStatus` with its schema defaults. -/
structure SyncStatus where
  lastSyncAttempt : Option Nat := none
  syncAttempts : Nat := 0
  lastSyncError : Option String := none
  isSynced : Bool := false
deriving Repr

/-- One entry of `fieldResponseSchema` (the parts the claims depend on). -/
structure FieldResponse where
  fieldId : String
  fieldLabel : String
  fieldType : String
  value : JsValue

/-- One entry of the `errors` array of a response. -/
structure ErrEntry where
  timestamp : Nat
  message : String
  details : Option String := none

/-- A `Response` document (`responseSchema`), with the schema defaults.
`metadata.completionPercentage` has schema default 100
(`completionPercentage: { type: Number, default: 100 }`), which Mongoose
applies to every newly created document on which it is not supplied. -/
structure ResponseDoc where
  formId : Nat
  airtableBaseId : String := ""
  airtableTableId : String := ""
  airtableRecordId : Option String := none
  responses : List FieldResponse := []
  status : RespStatus := .pending
  errors : List ErrEntry := []
  syncStatus : SyncStatus := {}
  metadata_timeToComplete : Option Nat := none
  metadata_completionPercentage : Int := 100

/-- The pre-save middleware of `responseSchema`: recompute
`metadata.completionPercentage` only when its current value is falsy
(`if (!this.metadata.completionPercentage)` — for a number that means
it equals 0); `completedFields` counts answers with a truthy value
(`r.value && r.value !== '' && r.value !== null`). -/
def preSaveResponse (r : ResponseDoc) : ResponseDoc :=
  if r.metadata_completionPercentage = 0 then
    let totalFields : Nat := r.responses.length
    let completedFields : Nat :=
      (r.responses.filter (fun fr => fr.value.truthy)).length
    { r with metadata_completionPercentage :=
        if totalFields > 0 then
          round (((completedFields : ℚ) / (totalFields : ℚ)) * 100)
        else 0 }
  else r

/-- Model of `responseSchema.methods.addError`: append an error entry, set
`status = 'failed'`, then `save()` (which runs the pre-save hook). -/
def addError (r : ResponseDoc) (message : String) (details : Option String)
    (now : Nat) : ResponseDoc :=
  preSaveResponse
    { r with
      errors := r.errors ++ [{ timestamp := now, message := message,
                               details := details }]
      status := .failed }

/-- Model of `responseSchema.methods.markAsSynced`: store the Airtable record id,
set `status = 'synced'`, `syncStatus.isSynced = true`,
`syncStatus.lastSyncAttempt = now`, then `save()`. -/
def markAsSynced (r : ResponseDoc) (airtableRecordId : String)
    (now : Nat) : ResponseDoc :=
  preSaveResponse
    { r with
      airtableRecordId := some airtableRecordId
      status := .synced
      syncStatus := { r.syncStatus with
                      isSynced := true
                      lastSyncAttempt := some now } }

/-- Model of `responseSchema.methods.updateSyncAttempt`: bump `syncAttempts`,
stamp `lastSyncAttempt`; if an error is supplied, record it and set
`status = 'failed'`; then `save()`. -/
def updateSyncAttempt (r : ResponseDoc) (error : Option String)
    (now : Nat) : ResponseDoc :=
  let r1 := { r with
              syncStatus := { r.syncStatus with
                              syncAttempts := r.syncStatus.syncAttempts + 1
                              lastSyncAttempt := some now } }
  preSaveResponse
    (match error with
     | some e => { r1 with
                   syncStatus := { r1.syncStatus with lastSyncError := some e }
                   status := .failed }
     | none => r1)

/-- Model of `responseSchema.statics.findPendingSync`: the Mongo query
`{'syncStatus.isSynced': false, 'syncStatus.syncAttempts': {$lt: 3},
status: {$ne: 'synced'}}`, modelled as a filter over the whole
collection. -/
def findPendingSync (db : List ResponseDoc) : List ResponseDoc :=
  db.filter (fun r =>
    r.syncStatus.isSynced == false &&
    r.syncStatus.syncAttempts < 3 &&
    r.status != .synced)

/-- C1: membership in `findPendingSync` is exactly the conjunction of the
three query conditions; in particular `syncAttempts = 3` with
`isSynced = false` is excluded. -/
theorem findPendingSync_mem_iff (db : List ResponseDoc) (r : ResponseDoc) :
    (r ∈ db →
      (r ∈ findPendingSync db ↔
        (r.syncStatus.isSynced = false ∧ r.syncStatus.syncAttempts < 3 ∧
         r.status ≠ .synced))) ∧
    (r.syncStatus.syncAttempts = 3 ∧ r.syncStatus.isSynced = false →
      r ∉ findPendingSync db) := by
  constructor
  · intro hmem
    unfold findPendingSync
    rw [List.mem_filter]
    simp only [hmem, true_and, Bool.and_eq_true, beq_iff_eq, bne_iff_ne,
      decide_eq_true_eq, ne_eq]
    tauto
  · rintro ⟨h3, _⟩ hin
    unfold findPendingSync at hin
    rw [List.mem_filter] at hin
    simp only [Bool.and_eq_true, decide_eq_true_eq] at hin
    omega

/-- Witness for C1 on a concrete collection: a response with
`syncAttempts = 1`, `isSynced = false`, `status = 'failed'` is a member
of the pending-sync result. -/
theorem findPendingSync_mem_iff_witness :
    ({ formId := 1, status := .failed,
       syncStatus := { syncAttempts := 1 } } : ResponseDoc) ∈
      findPendingSync [{ formId := 1, status := .failed,
                         syncStatus := { syncAttempts := 1 } }] :=
  ((findPendingSync_mem_iff
      [{ formId := 1, status := .failed, syncStatus := { syncAttempts := 1 } }]
      { formId := 1, status := .failed,
        syncStatus := { syncAttempts := 1 } }).1
    (List.mem_singleton.mpr rfl)).mpr
    (by refine ⟨rfl, by norm_num, by simp⟩)

/-- A concrete response that has been successfully synced
(as produced by `markAsSynced`). -/
def syncedResp : ResponseDoc :=
  markAsSynced { formId := 7, status := .pending } "recABC" 10

/-- C7 counterexample: `'synced'` is not terminal — calling `addError` on
a response whose status is `'synced'` unconditionally sets
`status = 'failed'` (`this.status = 'failed'` in `addError` has no guard). -/
theorem synced_not_terminal_counterexample :
    syncedResp.status = .synced ∧
    (addError syncedResp "boom" none 11).status = .failed ∧
    (addError syncedResp "boom" none 11).status ≠ .synced := by
  refine ⟨rfl, rfl, by decide⟩

/-- C7 amended: a successful sync (`markAsSynced`) always ends in status
`'synced'`, stores the external record id and sets `isSynced = true`;
from `'synced'`, `markAsSynced` and `updateSyncAttempt` without an error
keep the status at `'synced'`, but `addError` — and `updateSyncAttempt`
with an error — transition it to `'failed'`. -/
theorem synced_transitions (r : ResponseDoc) (recId msg : String)
    (d : Option String) (e : String) (now : Nat) :
    ((markAsSynced r recId now).status = .synced ∧
     (markAsSynced r recId now).airtableRecordId = some recId ∧
     (markAsSynced r recId now).syncStatus.isSynced = true) ∧
    (r.status = .synced →
      (markAsSynced r recId now).status = .synced ∧
      (updateSyncAttempt r none now).status = .synced ∧
      (addError r msg d now).status = .failed ∧
      (updateSyncAttempt r (some e) now).status = .failed) := by
  unfold markAsSynced updateSyncAttempt addError preSaveResponse
  refine ⟨⟨?_, ?_, ?_⟩, fun hs => ⟨?_, ?_, ?_, ?_⟩⟩
  · split <;> rfl
  · split <;> rfl
  · split <;> rfl
  · split <;> rfl
  · dsimp only
    split <;> simpa using hs
  · split <;> rfl
  · dsimp only
    split <;> rfl

/-- Witness for C7 amended, at a concrete synced response. -/
theorem synced_transitions_witness :
    (updateSyncAttempt syncedResp none 12).status = .synced :=
  ((synced_transitions syncedResp "recX" "m" none "e" 12).2 rfl).2.1

/-- A response created without a supplied completion percentage and with a
single empty answer: Mongoose fills `metadata.completionPercentage` with
the schema default 100. -/
def c6Response : ResponseDoc :=
  { formId := 3
    responses := [{ fieldId := "fldA", fieldLabel := "Name",
                    fieldType := "singleLineText", value := .strV "" }] }

/-- C6 failing input: saving a newly created response with one empty
answer and no supplied completion percentage leaves
`metadata.completionPercentage` at the schema default 100 — the pre-save
guard `if (!this.metadata.completionPercentage)` sees the truthy default
and skips the computation — whereas the fraction of non-empty answers
prescribes `round(100 * 0 / 1) = 0`. -/
theorem completionPercentage_not_computed :
    (preSaveResponse c6Response).metadata_completionPercentage = 100 ∧
    round (((c6Response.responses.filter
              (fun fr => fr.value.truthy)).length : ℚ) /
           (c6Response.responses.length : ℚ) * 100) = 0 := by
  constructor
  · rfl
  · norm_num [c6Response, JsValue.truthy]

/-- Model of `formSchema.settings` with its schema defaults. -/
structure FormSettings where
  allowMultipleSubmissions : Bool := true
  requireLogin : Bool := false
  showProgressBar : Bool := true
  submitButtonText : String := "Submit"
  successMessage : String := "Thank you for your submission!"
  redirectUrl : Option String := none
deriving DecidableEq, Repr

/-- Model of `formSchema.stats` with its schema defaults (all three default 0). -/
structure FormStats where
  totalViews : Nat := 0
  totalSubmissions : Nat := 0
  conversionRate : Int := 0
deriving DecidableEq, Repr

/-- Model of `formSchema.shareSettings` with its schema defaults. -/
structure ShareSettings where
  isPublic : Bool := true
  shareUrl : Option String := none
  embedCode : Option String := none
deriving DecidableEq, Repr

/-- One entry of `formSchema.fields` (`formFieldSchema`), the parts the
claims depend on; `order` is required in the schema. -/
structure FormField where
  airtableFieldId : String
  airtableFieldName : String
  airtableFieldType : String
  label : String
  required : Bool := false
  order : Int
  isVisible : Bool := true
deriving DecidableEq, Repr

/-- A `Form` document (`formSchema`), with the schema defaults. -/
structure FormDoc where
  id : Nat
  title : String
  description : Option String := none
  userId : Nat
  airtableBaseId : String := ""
  airtableBaseName : String := ""
  airtableTableId : String := ""
  airtableTableName : String := ""
  fields : List FormField := []
  settings : FormSettings := {}
  isActive : Bool := true
  isPublished : Bool := false
  stats : FormStats := {}
  shareSettings : ShareSettings := {}
deriving DecidableEq, Repr

/-- JS falsiness of an optional string (`!this.shareSettings.shareUrl`):
missing or the empty string. -/
def jsFalsyStr : Option String → Bool
  | none => true
  | some s => s == ""

/-- Rendering of `Math.round((totalSubmissions / totalViews) * 100)` in exact rational
arithmetic (both `Math.round` and Mathlib's `round` are floor (x + 1/2)). -/
def conversionRateOf (totalSubmissions totalViews : Nat) : Int :=
  round (((totalSubmissions : ℚ) / (totalViews : ℚ)) * 100)

/-- The pre-save middleware of `formSchema`, parametrised by the
`CLIENT_URL` environment value used in the embed snippet: on a new
document (or a falsy share URL) generate `shareUrl`/`embedCode`, then
recompute `stats.conversionRate = Math.round((totalSubmissions /
totalViews) * 100)` whenever `totalViews > 0`. -/
def formShareHook (clientUrl : String) (f : FormDoc) (isNew : Bool) :
    FormDoc :=
  if isNew || jsFalsyStr f.shareSettings.shareUrl then
    { f with shareSettings :=
        { f.shareSettings with
          shareUrl := some (toString f.id)
          embedCode := some ("<iframe src=\"" ++ clientUrl ++ "/embed/" ++
            toString f.id ++
            "\" width=\"100%\" height=\"600\" frameborder=\"0\"></iframe>") } }
  else f

/-- The second half of the pre-save middleware, applied after
`formShareHook`. -/
def formPreSave (clientUrl : String) (f : FormDoc) (isNew : Bool) :
    FormDoc :=
  let f1 := formShareHook clientUrl f isNew
  if f1.stats.totalViews > 0 then
    { f1 with stats :=
        { f1.stats with conversionRate := conversionRateOf f1.stats.totalSubmissions f1.stats.totalViews } }
  else f1

/-- Model of `formSchema.methods.incrementViews`: bump `stats.totalViews`, then
`save()` (which runs the pre-save hook). -/
def incrementViews (clientUrl : String) (f : FormDoc) : FormDoc :=
  formPreSave clientUrl
    { f with stats := { f.stats with totalViews := f.stats.totalViews + 1 } }
    false

/-- Model of `formSchema.methods.incrementSubmissions`: bump
`stats.totalSubmissions`, then `save()`. -/
def incrementSubmissions (clientUrl : String) (f : FormDoc) : FormDoc :=
  formPreSave clientUrl
    { f with stats :=
        { f.stats with totalSubmissions := f.stats.totalSubmissions + 1 } }
    false

/-- The form states reachable through the application's own operations:
creation (`POST /api/forms` and `POST /:id/duplicate` both construct the
document without touching `stats`, so `stats` starts at its schema
default) followed by a save; a view increment; a submission increment;
and any re-save of an edit that does not touch `stats` (`PUT /:id`,
`POST /:id/publish`). -/
inductive FormReach (clientUrl : String) : FormDoc → Prop where
  | created (f0 : FormDoc) (h : f0.stats = {}) :
      FormReach clientUrl (formPreSave clientUrl f0 true)
  | view (f : FormDoc) :
      FormReach clientUrl f → FormReach clientUrl (incrementViews clientUrl f)
  | subm (f : FormDoc) :
      FormReach clientUrl f →
      FormReach clientUrl (incrementSubmissions clientUrl f)
  | saved (f g : FormDoc) (h : g.stats = f.stats) :
      FormReach clientUrl f → FormReach clientUrl (formPreSave clientUrl g false)

/-- The share-URL half of the hook never touches `stats`. -/
theorem formShareHook_stats (clientUrl : String) (f : FormDoc)
    (isNew : Bool) : (formShareHook clientUrl f isNew).stats = f.stats := by
  unfold formShareHook
  split <;> rfl

/-- The stats half of the pre-save hook, as a pure function on `stats`. -/
def statsHook (s : FormStats) : FormStats :=
  if 0 < s.totalViews then
    { s with conversionRate := conversionRateOf s.totalSubmissions s.totalViews }
  else s

/-- The pre-save hook only rewrites `stats.conversionRate`, and only when
`totalViews > 0`. -/
theorem formPreSave_stats (clientUrl : String) (f : FormDoc) (isNew : Bool) :
    (formPreSave clientUrl f isNew).stats = statsHook f.stats := by
  unfold formPreSave statsHook
  dsimp only
  rw [formShareHook_stats]
  by_cases hv : 0 < f.stats.totalViews
  · rw [if_pos hv, if_pos hv]
  · rw [if_neg hv, if_neg hv]
    exact formShareHook_stats clientUrl f isNew

/-- Effect of `incrementViews` on the stats level. -/
theorem incrementViews_stats (clientUrl : String) (f : FormDoc) :
    (incrementViews clientUrl f).stats =
      statsHook { f.stats with totalViews := f.stats.totalViews + 1 } := by
  unfold incrementViews
  rw [formPreSave_stats]

/-- Effect of `incrementSubmissions` on the stats level. -/
theorem incrementSubmissions_stats (clientUrl : String) (f : FormDoc) :
    (incrementSubmissions clientUrl f).stats =
      statsHook { f.stats with totalSubmissions := f.stats.totalSubmissions + 1 } := by
  unfold incrementSubmissions
  rw [formPreSave_stats]

/-- The conversion-rate relation the claim states. -/
def conversionOK (s : FormStats) : Prop :=
  (0 < s.totalViews →
    s.conversionRate =
      round (((s.totalSubmissions : ℚ) / (s.totalViews : ℚ)) * 100)) ∧
  (s.totalViews = 0 → s.conversionRate = 0)

/-- After the hook, `conversionOK` holds provided the rate was already 0
whenever the view count was 0. -/
theorem conversionOK_statsHook (s : FormStats)
    (h0 : s.totalViews = 0 → s.conversionRate = 0) :
    conversionOK (statsHook s) := by
  unfold statsHook conversionOK
  by_cases hv : 0 < s.totalViews
  · rw [if_pos hv]
    refine ⟨fun _ => rfl, fun hz => ?_⟩
    dsimp at hz
    omega
  · rw [if_neg hv]
    exact ⟨fun hlt => absurd hlt hv, h0⟩

/-- C4: after every save operation on a reachable form,
`stats.conversionRate = round(100 * totalSubmissions / totalViews)` when
`totalViews > 0`, and `0` when `totalViews = 0`. -/
theorem form_conversionRate_invariant (clientUrl : String) (f : FormDoc)
    (hf : FormReach clientUrl f) :
    (0 < f.stats.totalViews →
      f.stats.conversionRate =
        round (((f.stats.totalSubmissions : ℚ) /
                (f.stats.totalViews : ℚ)) * 100)) ∧
    (f.stats.totalViews = 0 → f.stats.conversionRate = 0) := by
  suffices h : conversionOK f.stats from h
  induction hf with
  | created f0 h =>
    rw [formPreSave_stats, h]
    exact conversionOK_statsHook _ (fun _ => rfl)
  | view f _ ih =>
    rw [incrementViews_stats]
    exact conversionOK_statsHook _ (by intro h; simp at h)
  | subm f _ ih =>
    rw [incrementSubmissions_stats]
    exact conversionOK_statsHook _ (fun hz => ih.2 hz)
  | saved f g h _ ih =>
    rw [formPreSave_stats, h]
    exact conversionOK_statsHook _ ih.2

/-- A freshly created form document (stats at their schema defaults). -/
def c4Form0 : FormDoc :=
  { id := 1, title := "T", userId := 5, airtableBaseId := "app1",
    airtableBaseName := "Base", airtableTableId := "tbl1",
    airtableTableName := "Table" }

/-- Witness for C4 at a concrete reachable form (one view, no
submissions): the invariant gives `conversionRate = round(0/1 * 100) = 0`. -/
theorem form_conversionRate_invariant_witness :
    (incrementViews "http://x" (formPreSave "http://x" c4Form0 true)).stats.conversionRate = 0 := by
  have h1 : (incrementViews "http://x" (formPreSave "http://x" c4Form0 true)).stats
      = statsHook { totalViews := 1 } := by
    rw [incrementViews_stats, formPreSave_stats]
    rfl
  have h := (form_conversionRate_invariant "http://x"
      (incrementViews "http://x" (formPreSave "http://x" c4Form0 true))
      (FormReach.view _ (FormReach.created c4Form0 rfl))).1
  rw [h1] at h ⊢
  rw [h (by norm_num [statsHook])]
  norm_num [statsHook, conversionRateOf]

/-- Result of `GET /api/forms/:id`. -/
inductive GetFormResp where
  | notFound : GetFormResp
  | accessDenied : GetFormResp
  | ok : FormDoc → GetFormResp
deriving DecidableEq

/-- Model of `GET /api/forms/:id` (optionalAuth): look the form up; compute
`isOwner = req.user && form.userId === req.user.userId` and
`isPublic = form.isPublished && form.isActive`; deny with 403 unless
owner or public; increment the view counter only for a public read by a
non-owner; respond with the (possibly updated) form.  Returns the
response together with the stored state of the form after the request. -/
def getFormById (clientUrl : String) (stored : Option FormDoc)
    (requester : Option Nat) : GetFormResp × Option FormDoc :=
  match stored with
  | none => (.notFound, none)
  | some form =>
    let isOwner : Bool :=
      match requester with
      | some uid => form.userId == uid
      | none => false
    let isPublic : Bool := form.isPublished && form.isActive
    if !isOwner && !isPublic then
      (.accessDenied, some form)
    else
      let form1 := if isPublic && !isOwner then incrementViews clientUrl form
                   else form
      (.ok form1, some form1)

/-- C5: a non-owner read of a form that is not both active and published
is denied and leaves the form (hence `stats.totalViews`) untouched; a
non-owner read of an active and published form succeeds and bumps
`stats.totalViews` by exactly one; the owner's read always succeeds. -/
theorem getFormById_access (clientUrl : String) (form : FormDoc)
    (requester : Option Nat) :
    (requester ≠ some form.userId →
      (¬(form.isActive = true ∧ form.isPublished = true) →
        getFormById clientUrl (some form) requester =
          (.accessDenied, some form)) ∧
      (form.isActive = true ∧ form.isPublished = true →
        ∃ f1, getFormById clientUrl (some form) requester =
                (.ok f1, some f1) ∧
              f1.stats.totalViews = form.stats.totalViews + 1)) ∧
    (getFormById clientUrl (some form) (some form.userId) =
      (.ok form, some form)) := by
  have hview : (incrementViews clientUrl form).stats.totalViews =
      form.stats.totalViews + 1 := by
    rw [incrementViews_stats]
    unfold statsHook
    rw [if_pos (by dsimp; omega)]
  have hpubOf : ∀ hnp : ¬(form.isActive = true ∧ form.isPublished = true),
      (form.isPublished && form.isActive) = false := by
    intro hnp
    rcases Bool.eq_false_or_eq_true form.isActive with ha | ha
    · rcases Bool.eq_false_or_eq_true form.isPublished with hp | hp
      · exact absurd ⟨ha, hp⟩ hnp
      · simp [hp]
    · simp [ha]
  constructor
  · intro hne
    rcases requester with _ | uid
    · refine ⟨fun hnp => ?_, fun hap => ?_⟩
      · unfold getFormById
        dsimp only
        rw [hpubOf hnp]
        rfl
      · unfold getFormById
        dsimp only
        rw [hap.1, hap.2]
        exact ⟨incrementViews clientUrl form, rfl, hview⟩
    · have hown : (form.userId == uid) = false := by
        simp only [beq_eq_false_iff_ne, ne_eq]
        intro he
        exact hne (by rw [he])
      refine ⟨fun hnp => ?_, fun hap => ?_⟩
      · unfold getFormById
        dsimp only
        rw [hown, hpubOf hnp]
        rfl
      · unfold getFormById
        dsimp only
        rw [hown, hap.1, hap.2]
        exact ⟨incrementViews clientUrl form, rfl, hview⟩
  · unfold getFormById
    dsimp only
    rw [beq_self_eq_true]
    rcases Bool.eq_false_or_eq_true (form.isPublished && form.isActive)
      with hpub | hpub <;> rw [hpub] <;> rfl

/-- Witness for C5: an anonymous read of an unpublished form is denied
and leaves it unchanged. -/
theorem getFormById_access_witness :
    getFormById "http://x" (some c4Form0) none =
      (.accessDenied, some c4Form0) :=
  ((getFormById_access "http://x" c4Form0 none).1 (by simp)).1
    (by intro h; exact absurd h.2 (by decide))

/-- Model of the `Response.deleteMany` call on `formId`: the first step of
`DELETE /api/forms/:id`. -/
def deleteResponsesOf (responses : List ResponseDoc) (fid : Nat) :
    List ResponseDoc :=
  responses.filter (fun r => r.formId != fid)

/-- Model of `Form.findByIdAndDelete(form._id)`: the second step of
`DELETE /api/forms/:id`. -/
def deleteFormDoc (forms : List FormDoc) (fid : Nat) : List FormDoc :=
  forms.filter (fun f => f.id != fid)

/-- Model of `DELETE /api/forms/:id` (owner only, via `checkOwnership`): delete
the associated responses first, then the form itself. -/
def deleteFormRoute (forms : List FormDoc) (responses : List ResponseDoc)
    (fid : Nat) : List FormDoc × List ResponseDoc :=
  let responses1 := deleteResponsesOf responses fid
  let forms1 := deleteFormDoc forms fid
  (forms1, responses1)

/-- C8: after deleting a form, the surviving responses are exactly the
original ones whose `formId` differs from the deleted id — so no response
referencing the form remains — and the form itself is gone. -/
theorem deleteFormRoute_no_orphans (forms : List FormDoc)
    (responses : List ResponseDoc) (fid : Nat) :
    (∀ r, r ∈ (deleteFormRoute forms responses fid).2 ↔
       (r ∈ responses ∧ r.formId ≠ fid)) ∧
    (∀ g, g ∈ (deleteFormRoute forms responses fid).1 ↔
       (g ∈ forms ∧ g.id ≠ fid)) := by
  constructor
  · intro r
    unfold deleteFormRoute deleteResponsesOf
    rw [List.mem_filter]
    simp
  · intro g
    unfold deleteFormRoute deleteFormDoc
    rw [List.mem_filter]
    simp

/-- Witness for C8 on a concrete store: the response referencing the
deleted form is gone afterwards. -/
theorem deleteFormRoute_no_orphans_witness :
    ({ formId := 4 } : ResponseDoc) ∉
      (deleteFormRoute [] [{ formId := 4 }] 4).2 := fun h =>
  (((deleteFormRoute_no_orphans [] [{ formId := 4 }] 4).1
      { formId := 4 }).mp h).2 rfl

/-- Model of `POST /api/forms/:id/duplicate` (owner only): build a new form from
the original with a freshly generated id, `title || \`${original.title}
(Copy)\``, deep copies of `fields` and `settings`, `isActive = true`,
`isPublished = false`, then save it.  `newId` stands for the id Mongo
generates for the new document (distinct from every existing id). -/
def duplicateFormRoute (clientUrl : String) (orig : FormDoc)
    (suppliedTitle : Option String) (newId : Nat) (ownerId : Nat) :
    FormDoc :=
  formPreSave clientUrl
    { id := newId
      title := match suppliedTitle with
               | some t => if t == "" then orig.title ++ " (Copy)" else t
               | none => orig.title ++ " (Copy)"
      description := orig.description
      userId := ownerId
      airtableBaseId := orig.airtableBaseId
      airtableBaseName := orig.airtableBaseName
      airtableTableId := orig.airtableTableId
      airtableTableName := orig.airtableTableName
      fields := orig.fields
      settings := orig.settings
      isActive := true
      isPublished := false }
    true

/-- C9: every duplication of a form — whatever title the request
supplies — yields a form whose id is the freshly generated one (distinct
from the source's), with `isPublished = false` and fields and settings
equal to the source's; and when no title is supplied, the title is
`"<original> (Copy)"`. -/
theorem duplicateFormRoute_spec (clientUrl : String) (orig : FormDoc)
    (suppliedTitle : Option String) (newId ownerId : Nat)
    (hfresh : newId ≠ orig.id) :
    (duplicateFormRoute clientUrl orig suppliedTitle newId ownerId).id = newId ∧
    (duplicateFormRoute clientUrl orig suppliedTitle newId ownerId).id ≠ orig.id ∧
    (duplicateFormRoute clientUrl orig suppliedTitle newId ownerId).isPublished = false ∧
    (duplicateFormRoute clientUrl orig suppliedTitle newId ownerId).fields = orig.fields ∧
    (duplicateFormRoute clientUrl orig suppliedTitle newId ownerId).settings = orig.settings ∧
    (suppliedTitle = none →
      (duplicateFormRoute clientUrl orig suppliedTitle newId ownerId).title =
        orig.title ++ " (Copy)") := by
  unfold duplicateFormRoute formPreSave formShareHook
  dsimp only
  rw [Bool.true_or, if_pos rfl]
  dsimp only
  split <;>
    exact ⟨rfl, by simpa using hfresh, rfl, rfl, rfl,
      fun hn => by subst hn; rfl⟩

/-- Witness for C9 at a concrete form. -/
theorem duplicateFormRoute_spec_witness :
    (duplicateFormRoute "http://x" c4Form0 none 2 5).title = "T (Copy)" :=
  (duplicateFormRoute_spec "http://x" c4Form0 none 2 5 (by decide)).2.2.2.2.2 rfl

/-- A field entry as supplied in the body of `POST /api/forms` or
`PUT /api/forms/:id`; `order` may be omitted (JSON numbers carry no NaN,
so an `Option Int` covers the supplied values). -/
structure FieldInput where
  airtableFieldId : String
  airtableFieldName : String
  airtableFieldType : String
  label : String
  required : Bool := false
  isVisible : Bool := true
  order : Option Int := none
deriving DecidableEq, Repr

/-- JS expression `field.order || index`: a missing order — and an order
of 0, which is falsy — falls back to the array index. -/
def jsOrderFallback (order : Option Int) (index : Nat) : Int :=
  match order with
  | some v => if v == 0 then (index : Int) else v
  | none => (index : Int)

/-- Conversion of one supplied field at array index `index` into the
stored field, as done by `fields.map((field, index) => ({ ...field,
order: field.order || index }))` in both the create and the update
handler. -/
def storeField (f : FieldInput) (index : Nat) : FormField :=
  { airtableFieldId := f.airtableFieldId
    airtableFieldName := f.airtableFieldName
    airtableFieldType := f.airtableFieldType
    label := f.label
    required := f.required
    isVisible := f.isVisible
    order := jsOrderFallback f.order index }

/-- Model of the `fields.map((field, index) => ...)` call, with `k` the
index of the first element (the handlers call it with `k = 0`). -/
def assignFieldOrders : List FieldInput → Nat → List FormField
  | [], _ => []
  | f :: fs, k => storeField f k :: assignFieldOrders fs (k + 1)

/-- Index-wise characterisation of `assignFieldOrders`. -/
theorem assignFieldOrders_getElem (fs : List FieldInput) (k i : Nat) :
    (assignFieldOrders fs k)[i]? = (fs[i]?).map (fun f => storeField f (k + i)) := by
  induction fs generalizing k i with
  | nil => simp [assignFieldOrders]
  | cons f fs ih =>
    cases i with
    | zero => simp [assignFieldOrders]
    | succ j =>
      simp only [assignFieldOrders, List.getElem?_cons_succ]
      rw [ih (k + 1) j]
      have harith : k + 1 + j = k + (j + 1) := by omega
      rw [harith]

/-- C10: the stored order of the field at index `i` is the supplied order
when that order is a nonzero number, and the index `i` when the order is
omitted; a supplied order of 0 is falsy in JS and is likewise replaced by
the index. -/
theorem assignFieldOrders_order (fs : List FieldInput) (i : Nat)
    (f : FieldInput) (hf : fs[i]? = some f) :
    (∀ v : Int, f.order = some v → v ≠ 0 →
       ((assignFieldOrders fs 0)[i]?).map FormField.order = some v) ∧
    (f.order = none →
       ((assignFieldOrders fs 0)[i]?).map FormField.order = some (i : Int)) ∧
    (f.order = some 0 →
       ((assignFieldOrders fs 0)[i]?).map FormField.order = some (i : Int)) := by
  rw [assignFieldOrders_getElem, hf]
  refine ⟨fun v hv hnz => ?_, fun hn => ?_, fun h0 => ?_⟩
  · simp [storeField, jsOrderFallback, hv, hnz]
  · simp [storeField, jsOrderFallback, hn]
  · simp [storeField, jsOrderFallback, h0]

/-- Witness for C10: a two-field request whose second field carries an
explicit `order: 0` stores order 1 (the index) for it. -/
theorem assignFieldOrders_order_witness :
    ((assignFieldOrders
        [{ airtableFieldId := "f1", airtableFieldName := "Name",
           airtableFieldType := "singleLineText", label := "Your Name" },
         { airtableFieldId := "f2", airtableFieldName := "Mail",
           airtableFieldType := "singleLineText", label := "Your Mail",
           order := some 0 }] 0)[1]?).map FormField.order =
      some ((1 : Nat) : Int) :=
  (assignFieldOrders_order
      [{ airtableFieldId := "f1", airtableFieldName := "Name",
         airtableFieldType := "singleLineText", label := "Your Name" },
       { airtableFieldId := "f2", airtableFieldName := "Mail",
         airtableFieldType := "singleLineText", label := "Your Mail",
         order := some 0 }] 1
      { airtableFieldId := "f2", airtableFieldName := "Mail",
        airtableFieldType := "singleLineText", label := "Your Mail",
        order := some 0 } rfl).2.2 rfl

/-- A `User` document (`userSchema` in `models/User.js`), with the schema
defaults.  The profile subdocument is flattened to its `name` component
(the only one the routes write). -/
structure UserDoc where
  id : Nat
  email : String
  airtableUserId : String
  airtableAccessToken : String
  airtableRefreshToken : Option String := none
  airtableTokenExpiresAt : Option Nat := none
  profileName : Option String := none
  isActive : Bool := true
  lastLoginAt : Nat := 0
deriving DecidableEq, Repr

/-- Helper for optional document paths in a serialized view. -/
def optEntry (k : String) : Option String → List (String × String)
  | some v => [(k, v)]
  | none => []

/-- Model of `this.toObject()` on a user: the flattened key/value pairs of
the full document, token material included. -/
def userToObject (u : UserDoc) : List (String × String) :=
  [("_id", toString u.id), ("email", u.email),
   ("airtableUserId", u.airtableUserId),
   ("airtableAccessToken", u.airtableAccessToken)] ++
  optEntry "airtableRefreshToken" u.airtableRefreshToken ++
  (match u.airtableTokenExpiresAt with
   | some t => [("airtableTokenExpiresAt", toString t)]
   | none => []) ++
  optEntry "profile.name" u.profileName ++
  [("isActive", toString u.isActive), ("lastLoginAt", toString u.lastLoginAt)]

/-- Model of `userSchema.methods.toJSON`: take `toObject()` and delete the
`airtableAccessToken` and `airtableRefreshToken` paths.  Express's
`res.json(user)` serializes through this method, so it is the
externally-serialized view of the record. -/
def userToJSON (u : UserDoc) : List (String × String) :=
  (userToObject u).filter
    (fun kv => !(kv.1 == "airtableAccessToken" ||
                 kv.1 == "airtableRefreshToken"))

/-- The token endpoint's response body (`tokenResponse.data`). -/
structure TokenData where
  access_token : String
  refresh_token : Option String := none
  expires_in : Nat := 0
deriving DecidableEq, Repr

/-- The query string of an OAuth callback request
(`const { code, state, error } = req.query`). -/
structure CallbackQuery where
  code : Option String := none
  state : Option String := none
  error : Option String := none
deriving DecidableEq, Repr

/-- The JSON body sent by `GET /api/auth/airtable/simple-callback`. -/
inductive SimpleCallbackResp where
  | airtableError : String → SimpleCallbackResp
  | noCode : SimpleCallbackResp
  | success : TokenData → SimpleCallbackResp
  | tokenError : String → SimpleCallbackResp
deriving DecidableEq, Repr

/-- Model of the `GET /airtable/simple-callback` handler: report a
provider error as-is; reject a missing `code`; otherwise exchange the
code at the token endpoint (`exchange`, the network call) and return
`{ success: true, token: tokenResponse.data }` — or the exchange failure.
The destructured `state` is never compared against anything. -/
def simpleCallback (q : CallbackQuery)
    (exchange : String → Except String TokenData) : SimpleCallbackResp :=
  match q.error with
  | some e => .airtableError e
  | none =>
    match q.code with
    | none => .noCode
    | some code =>
      match exchange code with
      | .ok tokenData => .success tokenData
      | .error e => .tokenError e

/-- Flattened key/value pairs of the JSON body returned by the simple
callback (the externally-serialized view of its response). -/
def callbackRespFields : SimpleCallbackResp → List (String × String)
  | .airtableError m => [("error", "true"), ("message", m)]
  | .noCode => [("error", "true"), ("message", "No code")]
  | .success td =>
      [("success", "true"), ("token.access_token", td.access_token)] ++
      (match td.refresh_token with
       | some r => [("token.refresh_token", r)]
       | none => []) ++
      [("token.expires_in", toString td.expires_in)]
  | .tokenError d => [("error", "true"), ("tokenError", d)]

/-- Server-side session storage for the OAuth flow (`req.session`). -/
structure OAuthSession where
  oauthState : Option String := none
  codeVerifier : Option String := none
deriving DecidableEq, Repr

/-- The credential store (the `users` collection). -/
structure CredentialStore where
  users : List UserDoc := []
deriving DecidableEq, Repr

/-- The simple-callback route as a function of the full request context:
the handler body reads only the query string, never
`req.session.oauthState`, and performs no reads or writes on the
credential store. -/
def simpleCallbackRoute (sess : OAuthSession) (q : CallbackQuery)
    (exchange : String → Except String TokenData) (db : CredentialStore) :
    SimpleCallbackResp × CredentialStore :=
  (simpleCallback q exchange, db)

/-- C2 counterexample: on a successful token exchange, the JSON body
returned by `GET /api/auth/airtable/simple-callback` contains the
Airtable access token — here the concrete token string "SECRET_TOKEN"
under the `token.access_token` path — so the access token does appear in
an externally-serialized output of an auth endpoint. -/
theorem simpleCallback_leaks_token_counterexample :
    ("token.access_token", "SECRET_TOKEN") ∈
      callbackRespFields
        (simpleCallback { code := some "authcode1" }
          (fun _ => Except.ok { access_token := "SECRET_TOKEN" })) := by
  simp [simpleCallback, callbackRespFields]

/-- C2 amended: every serialization of the User/Credential record itself
(`toJSON`, used by `res.json(user)`) omits the `airtableAccessToken` and
`airtableRefreshToken` paths; but the simple callback's JSON body, which
serializes the raw token-exchange response rather than a record, carries
the access token whenever the exchange succeeds. -/
theorem userToJSON_no_token (u : UserDoc) (kv : String × String)
    (hkv : kv ∈ userToJSON u) (q : CallbackQuery)
    (exchange : String → Except String TokenData) (c : String)
    (td : TokenData) (herr : q.error = none) (hcode : q.code = some c)
    (hex : exchange c = Except.ok td) :
    (kv.1 ≠ "airtableAccessToken" ∧ kv.1 ≠ "airtableRefreshToken") ∧
    ("token.access_token", td.access_token) ∈
      callbackRespFields (simpleCallback q exchange) := by
  constructor
  · unfold userToJSON at hkv
    rw [List.mem_filter] at hkv
    have h := hkv.2
    simp only [Bool.not_eq_eq_eq_not, Bool.not_true, Bool.or_eq_false_iff,
      beq_eq_false_iff_ne, ne_eq] at h
    exact h
  · unfold simpleCallback
    rw [herr, hcode]
    dsimp only
    rw [hex]
    simp [callbackRespFields]

/-- Witness for C2 amended, at a concrete user record and callback. -/
theorem userToJSON_no_token_witness :
    (("email", "a@b.c") : String × String) ∈
      userToJSON { id := 9, email := "a@b.c", airtableUserId := "usr1",
                   airtableAccessToken := "SECRET_TOKEN" } ∧
    ("email", "a@b.c").1 ≠ "airtableAccessToken" := by
  have hmem : (("email", "a@b.c") : String × String) ∈
      userToJSON { id := 9, email := "a@b.c", airtableUserId := "usr1",
                   airtableAccessToken := "SECRET_TOKEN" } := by
    simp [userToJSON, userToObject, optEntry]
  exact ⟨hmem,
    (userToJSON_no_token
      { id := 9, email := "a@b.c", airtableUserId := "usr1",
        airtableAccessToken := "SECRET_TOKEN" }
      ("email", "a@b.c") hmem { code := some "authcode1" }
      (fun _ => Except.ok { access_token := "SECRET_TOKEN" }) "authcode1"
      { access_token := "SECRET_TOKEN" } rfl rfl rfl).1.1⟩

/-- C3 counterexample: a callback request whose `state` ("evilstate")
differs from the state stored in the caller's session ("goodstate") is
not rejected — the handler proceeds with the token exchange and answers
`{ success: true, token: ... }` — though the credential store is indeed
left untouched. -/
theorem simpleCallback_state_mismatch_counterexample :
    (some "evilstate" ≠
      ({ oauthState := some "goodstate" } : OAuthSession).oauthState) ∧
    simpleCallbackRoute { oauthState := some "goodstate" }
        { code := some "authcode1", state := some "evilstate" }
        (fun _ => Except.ok { access_token := "tok1" }) { users := [] } =
      (.success { access_token := "tok1" }, { users := [] }) := by
  exact ⟨by decide, rfl⟩

/-- C3 amended: the simple callback performs no state verification at
all — its response is a function of the query string and the token
exchange only, independent of the session's stored state — and it never
creates or updates any Credential record (the store is returned
unchanged on every input). -/
theorem simpleCallbackRoute_ignores_state (sess sess' : OAuthSession)
    (q : CallbackQuery) (exchange : String → Except String TokenData)
    (db : CredentialStore) :
    simpleCallbackRoute sess q exchange db =
      simpleCallbackRoute sess' q exchange db ∧
    (simpleCallbackRoute sess q exchange db).2 = db :=
  ⟨rfl, rfl⟩

end FormBuilder
